import Mathlib

/-!
# wc-vision-service — document-to-model-input normalization pipeline

Shallow embedding of the core pipeline of the `wc-vision-service` repository
(the Poppler-based `server.js` variant, together with the older embedded
variants where their behaviour differs), covering:

* the input classifier (`isPdf` decision in the `/analyze-plan` handler),
* the rasterizer's effective-DPI computation (`rasterizePdfToImagesPoppler`),
* the page-collection loop and the empty-result check,
* the temporary-directory bookkeeping of `downloadToTempFile` /
  `rasterizePdfToImagesPoppler` (modelled as explicit state passing),
* the multimodal content assembly,
* the `output_text` / nested-content extraction of the response normalizer,
* the request-level glue: the `x-internal-key` auth gate and the
  `fileUrl || imageUrl` URL selection.

JavaScript strings are modelled as Lean `String`; possibly-`undefined`
values as `Option String`; fallible asynchronous operations as `Except`
results or explicit boolean outcomes supplied as parameters.
-/

/-! ## JavaScript value helpers -/

/-- JS truthiness of a possibly-`undefined` string (`undefined` and `''` are falsy). -/
def jsTruthy (v : Option String) : Bool :=
  match v with
  | none => false
  | some s => !(s == "")

/-- Emptiness test for a string (`!s` for a JS string `s`). -/
def strBlank (s : String) : Bool := s == ""

/-- JS strict equality `===` on possibly-`undefined` strings
(`undefined === undefined` is `true`). -/
def jsStrictEqStr (a b : Option String) : Bool := a == b

/-- JS `a || b` on possibly-`undefined` strings: the first operand when truthy,
otherwise the second. -/
def jsOrStr (a b : Option String) : Option String :=
  if jsTruthy a then a else b

/-- ASCII lower-casing of one character (models `String.prototype.toLowerCase`
on the ASCII range, which is all the code compares against). -/
def lowerChar (c : Char) : Char :=
  if 'A' ≤ c && c ≤ 'Z' then Char.ofNat (c.toNat + 32) else c

/-- ASCII lower-casing of a string (models `url.toLowerCase()`). -/
def lowerString (s : String) : String := ⟨s.data.map lowerChar⟩

/-- Does `pat` occur as a contiguous subsequence of `s`? -/
def containsSeq (pat : List Char) : List Char → Bool
  | [] => pat.isEmpty
  | c :: rest => pat.isPrefixOf (c :: rest) || containsSeq pat rest

/-- Does `s` end with `pat`? -/
def endsWithSeq (pat s : List Char) : Bool :=
  pat.reverse.isPrefixOf s.reverse

/-- Model of `String.prototype.trim`: strip leading and trailing whitespace. -/
def jsTrim (s : String) : String :=
  ⟨((s.data.dropWhile Char.isWhitespace).reverse.dropWhile Char.isWhitespace).reverse⟩

/-! ## Input classifier

Embeds the `isPdf` decision of the `/analyze-plan` handler:

```js
const hasPdfExt = /\.pdf(\?|$)/.test(lowerUrl);
const hasImgExt = /\.(png|jpg|jpeg|gif|webp)(\?|$)/.test(lowerUrl);
const isExplicitPdfType = lowerType === 'pdf';
const isExplicitImgType = ['png','jpg','jpeg','gif','webp'].includes(lowerType);
let isPdf = isExplicitPdfType || hasPdfExt;
if (!isPdf && !hasImgExt && !isExplicitImgType) isPdf = true;
```

An unanchored regex `/\.EXT(\?|$)/` matches a string exactly when the string
contains `".EXT?"` or ends with `".EXT"`; `hasExtMatch` is that equivalence. -/

/-- The recognized raster-image extensions / declared types. -/
def imageExts : List String := ["png", "jpg", "jpeg", "gif", "webp"]

/-- Does `lowerUrl` match `/\.EXT(\?|$)/` for the given extension? -/
def hasExtMatch (ext : String) (lowerUrl : String) : Bool :=
  containsSeq ("." ++ ext ++ "?").data lowerUrl.data ||
    endsWithSeq ("." ++ ext).data lowerUrl.data

/-- `hasPdfExt` of the handler: `/\.pdf(\?|$)/.test(lowerUrl)`. -/
def hasPdfExt (lowerUrl : String) : Bool := hasExtMatch "pdf" lowerUrl

/-- `hasImgExt` of the handler: `/\.(png|jpg|jpeg|gif|webp)(\?|$)/.test(lowerUrl)`. -/
def hasImgExt (lowerUrl : String) : Bool :=
  imageExts.any fun ext => hasExtMatch ext lowerUrl

/-- The derived resource kind (`isPdf ? 'pdf' : 'image'`). -/
inductive ResourceKind
  | Image
  | PaginatedDocument
deriving DecidableEq, Repr

/-- `lowerType`: `(fileType || '').toLowerCase()`. -/
def lowerTypeOf (fileType : Option String) : String :=
  lowerString (fileType.getD "")

/-- `isExplicitPdfType`: `lowerType === 'pdf'`. -/
def isExplicitPdfType (fileType : Option String) : Bool :=
  lowerTypeOf fileType == "pdf"

/-- `isExplicitImgType`: `['png','jpg','jpeg','gif','webp'].includes(lowerType)`. -/
def isExplicitImgType (fileType : Option String) : Bool :=
  imageExts.contains (lowerTypeOf fileType)

/-- The classifier: the `isPdf` decision of the handler, returned as a
`ResourceKind`. -/
def classify (url : String) (fileType : Option String) : ResourceKind :=
  let lowerUrl := lowerString url
  let isPdf0 := isExplicitPdfType fileType || hasPdfExt lowerUrl
  let isPdf :=
    if !isPdf0 && !hasImgExt lowerUrl && !isExplicitImgType fileType then true
    else isPdf0
  if isPdf then ResourceKind.PaginatedDocument else ResourceKind.Image

/-! ## Rasterizer: effective-DPI computation

Embeds, over exact rationals, the overage computation of
`rasterizePdfToImagesPoppler`:

```js
const w = (parseFloat(m[1]) / 72) * dpi;
const h = (parseFloat(m[2]) / 72) * dpi;
const pixels = w * h;
if (pixels > maxPixels) {
  const factor = Math.sqrt(maxPixels / pixels);
  safeDpi = Math.floor(dpi * factor);
}
```

`ratSqrtFloor q` computes `⌊√q⌋` for a nonnegative rational `q` exactly,
using `⌊√(num/den)⌋ = ⌊√(num·den)⌋ / den`; the identity
`dpi · √(maxPixels / pixels) = √(dpi² · maxPixels / pixels)` (for `dpi ≥ 0`)
turns the source's expression into a single such square root.  The theorem
`effectiveDpi_floor_sqrt_spec` below proves the result equal to the source's
`Math.floor(dpi * Math.sqrt(maxPixels / pixels))` read over the reals. -/

/-- `pixels` as computed from a page size in points: `(w/72·dpi)·(h/72·dpi)`. -/
def pagePixels (w h : ℚ) (dpi : ℕ) : ℚ :=
  (w / 72 * dpi) * (h / 72 * dpi)

/-- Exact `⌊√q⌋` for a nonnegative rational `q`. -/
def ratSqrtFloor (q : ℚ) : ℕ :=
  Nat.sqrt (q.num.toNat * q.den) / q.den

/-- `safeDpi`: the DPI actually passed to `pdftoppm -r`.  `pageSize` is the
first page's `(width, height)` in points as parsed from `pdfinfo`
(`none` when page dimensions are unavailable, in which case the `catch {}`
leaves `safeDpi = dpi`). -/
def effectiveDpi (pageSize : Option (ℚ × ℚ)) (dpi maxPixels : ℕ) : ℕ :=
  match pageSize with
  | none => dpi
  | some (w, h) =>
    let pixels := pagePixels w h dpi
    if (maxPixels : ℚ) < pixels then
      ratSqrtFloor ((dpi : ℚ) ^ 2 * (maxPixels : ℚ) / pixels)
    else dpi

/-! ## Rasterizer: page collection loop

Embeds the output-collection loop of `rasterizePdfToImagesPoppler`:

```js
const images = [];
for (let i = 1; i <= maxPages; i++) {
  try {
    const img = await fs.readFile(`OUTPREFIX-i.png`);
    images.push(...);
  } catch { break; }
}
if (!images.length) throw new Error('Rasterization produced no images.');
return images;
```

`readPage i` abstracts `fs.readFile` of the `i`-th output file (already
encoded): `none` models a read failure (file absent), which breaks the loop. -/

/-- The collection loop, starting at page index `i` with `n` iterations left. -/
def collectLoop {α : Type} (readPage : ℕ → Option α) : ℕ → ℕ → List α
  | _, 0 => []
  | i, n + 1 =>
    match readPage i with
    | some img => img :: collectLoop readPage (i + 1) n
    | none => []

/-- `images` after the loop: pages read from index 1, up to `maxPages`. -/
def collectImages {α : Type} (readPage : ℕ → Option α) (maxPages : ℕ) : List α :=
  collectLoop readPage 1 maxPages

/-- The collection phase including the empty-result check. -/
def rasterizeCollect {α : Type} (readPage : ℕ → Option α) (maxPages : ℕ) :
    Except String (List α) :=
  let images := collectImages readPage maxPages
  if images.isEmpty then Except.error "Rasterization produced no images."
  else Except.ok images

/-! ## Rasterizer: temporary-directory bookkeeping

State-passing model of `downloadToTempFile` and the `try/finally` of
`rasterizePdfToImagesPoppler`.  `FsState.tempDirs` lists the per-request
temporary directories currently existing on disk.  The outcomes of the
fallible I/O operations (the fetch, the `fs.writeFile`, the `pdftoppm`
render) are supplied as parameters so every exit path of the source can be
exercised. -/

/-- Outcome of `fetch(url)` once the response is in hand. -/
structure FetchResult where
  /-- `res.ok` -/
  ok : Bool
  /-- The `content-length` header, when present. -/
  contentLength : Option ℕ
  /-- `buf.length`, the actual body size. -/
  bodyLength : ℕ
deriving DecidableEq, Repr

/-- The file-system state tracked by the model: existing temp directories. -/
structure FsState where
  tempDirs : List String
deriving DecidableEq, Repr

/-- `downloadToTempFile`: fetch, size checks, `fs.mkdtemp`, `fs.writeFile`.
Returns the temp-dir name on success.  The directory is created *before* the
write, so a failed write leaves it in the state. -/
def downloadToTempFile (fetchOut : Except String FetchResult) (writeOk : Bool)
    (maxBytes : ℕ) (dirName : String) (σ : FsState) :
    Except String String × FsState :=
  match fetchOut with
  | Except.error e => (Except.error e, σ)
  | Except.ok r =>
    if !r.ok then (Except.error "Failed to download file", σ)
    else if (match r.contentLength with
              | some n => decide (maxBytes < n)
              | none => false) then (Except.error "PDF too large", σ)
    else if maxBytes < r.bodyLength then (Except.error "PDF too large", σ)
    else
      let σ1 : FsState := ⟨dirName :: σ.tempDirs⟩
      if writeOk then (Except.ok dirName, σ1)
      else (Except.error "write failed", σ1)

/-- Did `downloadToTempFile` get past `fs.mkdtemp` (i.e. the fetch succeeded
and both size checks passed), so that the temp directory exists? -/
def downloadReachesWrite (fetchOut : Except String FetchResult) (maxBytes : ℕ) : Bool :=
  match fetchOut with
  | Except.error _ => false
  | Except.ok r =>
    r.ok &&
      !(match r.contentLength with
        | some n => decide (maxBytes < n)
        | none => false) &&
      decide (r.bodyLength ≤ maxBytes)

/-- `rasterizePdfToImagesPoppler` with explicit temp-dir state: the initial
`pdftoppm -h` probe, the download, then — inside `try/finally` — the render
and the collection loop; the `finally` removes the temp directory on every
path it covers. -/
def rasterizeWithState {α : Type} (pdftoppmOk : Bool)
    (fetchOut : Except String FetchResult) (writeOk renderOk : Bool)
    (readPage : ℕ → Option α) (maxPages maxBytes : ℕ) (dirName : String)
    (σ : FsState) : Except String (List α) × FsState :=
  if !pdftoppmOk then (Except.error "pdftoppm unavailable", σ)
  else
    match downloadToTempFile fetchOut writeOk maxBytes dirName σ with
    | (Except.error e, σ1) => (Except.error e, σ1)
    | (Except.ok dir, σ1) =>
      let cleanup : FsState → FsState := fun s => ⟨s.tempDirs.erase dir⟩
      if !renderOk then (Except.error "pdftoppm failed", cleanup σ1)
      else
        match rasterizeCollect readPage maxPages with
        | Except.error e => (Except.error e, cleanup σ1)
        | Except.ok imgs => (Except.ok imgs, cleanup σ1)

/-! ## Request assembler

Embeds the content assembly of the `/analyze-plan` handler:

```js
const content = [ { type: 'input_text', text: buildPrompt(...) } ];
if (isPdf) {
  pageImages.forEach((img) => content.push({ type: 'input_image', image_url: img }));
} else {
  content.push({ type: 'input_image', image_url: url });
}
```
-/

/-- One unit of the multimodal request payload. -/
inductive ContentBlock
  | instruction (text : String)
  | image (imageUrl : String)
deriving DecidableEq, Repr

/-- The assembled `content` array. -/
def assembleContent (promptText : String) (isPdf : Bool)
    (pageImages : List String) (url : String) : List ContentBlock :=
  let base := [ContentBlock.instruction promptText]
  if isPdf then base ++ pageImages.map ContentBlock.image
  else base ++ [ContentBlock.image url]

/-! ## Response normalizer

The response envelope, as far as the extraction code inspects it, and the two
extraction variants found in the repository:

* `jsonTextPoppler` — the Poppler `server.js` (the variant the Dockerfile
  deploys): `output_text` only, no fallback:
  ```js
  const jsonText = (typeof response.output_text === 'string' && response.output_text.trim())
    ? response.output_text : '';
  ```
* `jsonTextFallback` — the older embedded variant with the nested-content
  fallback:
  ```js
  let jsonText = '';
  if (typeof response.output_text === 'string' && response.output_text.trim()) {
    jsonText = response.output_text;
  } else if (Array.isArray(response.output) && response.output[0]
             && response.output[0].content && response.output[0].content[0]
             && typeof response.output[0].content[0].text === 'string') {
    jsonText = response.output[0].content[0].text;
  }
  ```
Both are followed by `if (!jsonText) return 500 empty-output error`. -/

/-- One element of `response.output[k].content`; `text` is `none` when the
`text` property is absent or not a string. -/
structure ContentItem where
  text : Option String
deriving DecidableEq, Repr

/-- One element of `response.output`. -/
structure OutputItem where
  content : Option (List ContentItem)
deriving DecidableEq, Repr

/-- The response envelope, restricted to the fields the extraction reads. -/
structure ResponseEnvelope where
  output_text : Option String
  output : Option (List OutputItem)
deriving DecidableEq, Repr

/-- `response.output[0].content[0].text` when every step of the chain is
present, `none` otherwise. -/
def nestedFirstText (r : ResponseEnvelope) : Option String :=
  match r.output with
  | some (o :: _) =>
    match o.content with
    | some (c :: _) => c.text
    | _ => none
  | _ => none

/-- Is the primary `output_text` field absent, or blank after trimming? -/
def primaryBlank (r : ResponseEnvelope) : Bool :=
  match r.output_text with
  | some s => strBlank (jsTrim s)
  | none => true

/-- `jsonText` in the Poppler variant (no fallback). -/
def jsonTextPoppler (r : ResponseEnvelope) : String :=
  match r.output_text with
  | some s => if strBlank (jsTrim s) then "" else s
  | none => ""

/-- `jsonText` in the variant with the nested-content fallback. -/
def jsonTextFallback (r : ResponseEnvelope) : String :=
  match r.output_text with
  | some s => if strBlank (jsTrim s) then (nestedFirstText r).getD "" else s
  | none => (nestedFirstText r).getD ""

/-- Poppler variant extraction result after the `if (!jsonText)` gate:
`none` models the empty-output 500 error. -/
def extractPoppler (r : ResponseEnvelope) : Option String :=
  let t := jsonTextPoppler r
  if strBlank t then none else some t

/-- Fallback variant extraction result after the `if (!jsonText)` gate. -/
def extractFallback (r : ResponseEnvelope) : Option String :=
  let t := jsonTextFallback r
  if strBlank t then none else some t

/-! ## Inbound handler glue: auth gate and URL selection

Embeds the entry of the `/analyze-plan` handler:

```js
const internalKey = req.headers['x-internal-key'];
if (!INTERNAL_API_KEY || internalKey !== INTERNAL_API_KEY) {
  return res.status(401).json({ error: 'Unauthorized' });
}
const { estimateId, imageUrl, fileUrl, fileType, extraContext } = req.body || {};
const url = fileUrl || imageUrl;
if (!url) return res.status(400).json({ error: 'Missing file/image URL' });
```
-/

/-- The guard condition `!INTERNAL_API_KEY || internalKey !== INTERNAL_API_KEY`
(`true` means the request is rejected with 401). -/
def authRejects (apiKey headerKey : Option String) : Bool :=
  !(jsTruthy apiKey) || !(jsStrictEqStr headerKey apiKey)

/-- The request-body fields the handler destructures (besides free-form
context, which does not influence control flow modelled here). -/
structure RequestBody where
  fileUrl : Option String
  imageUrl : Option String
  fileType : Option String
deriving DecidableEq, Repr

/-- How far the handler gets before any downstream work: `unauthorized` (401)
and `missingUrl` (400) short-circuit; `proceed url kind` records the resource
URL and classification used for all subsequent work (rasterization for a
`PaginatedDocument`, the direct image block for an `Image`, and the upstream
model call). -/
inductive HandlerOutcome
  | unauthorized
  | missingUrl
  | proceed (url : String) (kind : ResourceKind)
deriving DecidableEq, Repr

/-- The handler entry: auth gate, URL selection, classification. -/
def analyzePlan (apiKey headerKey : Option String) (body : RequestBody) :
    HandlerOutcome :=
  if authRejects apiKey headerKey then HandlerOutcome.unauthorized
  else
    match jsOrStr body.fileUrl body.imageUrl with
    | none => HandlerOutcome.missingUrl
    | some url =>
      if strBlank url then HandlerOutcome.missingUrl
      else HandlerOutcome.proceed url (classify url body.fileType)

/-! ## Concrete inputs used by witnesses and counterexamples -/

/-- A backend where only page 1 exists. -/
def readPageOne : ℕ → Option String :=
  fun i => if i == 1 then some "page-one" else none

/-- A backend with pages 1 and 2 of a two-page document (collected with
`maxPages = 3`, so `min pageCount maxPages = 2`). -/
def readPageTwoOfThree : ℕ → Option String :=
  fun i => if 1 ≤ i ∧ i ≤ min 2 3 then some "page-data" else none

/-- A successful small fetch (status ok, no `content-length`, tiny body). -/
def fetchSmallOk : Except String FetchResult :=
  Except.ok { ok := true, contentLength := none, bodyLength := 100 }

/-- A response envelope with a blank primary `output_text` but the JSON text
present in the nested content structure. -/
def envelopeNestedOnly : ResponseEnvelope :=
  { output_text := some ""
    output := some [{ content := some [{ text := some "\x7b\"quick_summary\":\"ok\"\x7d" }] }] }

/-! ## Helper lemmas -/

theorem explicitImg_of_mem {t : String} (h : lowerString t ∈ imageExts) :
    isExplicitImgType (some t) = true ∧ isExplicitPdfType (some t) = false := by
  have himg : isExplicitImgType (some t) = imageExts.contains (lowerString t) := rfl
  have hpdf : isExplicitPdfType (some t) = (lowerString t == "pdf") := rfl
  simp only [imageExts, List.mem_cons, List.not_mem_nil, or_false] at h
  rcases h with h | h | h | h | h <;> rw [himg, hpdf, h] <;> exact ⟨by decide, by decide⟩

theorem strBlank_of_trim {t : String} (h : strBlank (jsTrim t) = false) :
    strBlank t = false := by
  cases hb : strBlank t with
  | false => rfl
  | true =>
    have ht : t = "" := eq_of_beq hb
    subst ht
    exact absurd h (by decide)

/-! ## Claim theorems -/

/-- C1, counterexample: a URL whose path ends in `.pdf` together with the
explicitly declared raster-image type `png` is classified as
`PaginatedDocument`, not `Image` — the declared image type is *not* the first
rule in the decision order and does not win over the `.pdf` URL extension. -/
theorem classify_pdf_url_beats_declared_image_type :
    classify "https://x/plan.pdf" (some "png") = ResourceKind.PaginatedDocument ∧
    classify "https://x/plan.pdf" (some "png") ≠ ResourceKind.Image := by
  exact ⟨by decide, by decide⟩

/-- C1, amended: if `declaredType` explicitly names a known raster-image type
(png/jpg/jpeg/gif/webp, after lower-casing) *and* the URL does not match the
`.pdf` extension pattern, classification returns `Image`; when the URL does
match the `.pdf` pattern, the extension wins and classification returns
`PaginatedDocument` even with the declared image type. -/
theorem classify_declared_image_type (url t : String)
    (himg : lowerString t ∈ imageExts)
    (hnopdf : hasPdfExt (lowerString url) = false) :
    classify url (some t) = ResourceKind.Image ∧
    ∀ url2 : String, hasPdfExt (lowerString url2) = true →
      classify url2 (some t) = ResourceKind.PaginatedDocument := by
  obtain ⟨hexp, hpdfT⟩ := explicitImg_of_mem himg
  constructor
  · simp [classify, hexp, hpdfT, hnopdf]
  · intro url2 hpdf2
    simp [classify, hexp, hpdfT, hpdf2]

/-- C1 witness: concrete instance of `classify_declared_image_type`. -/
theorem classify_declared_image_type_wit :
    lowerString "png" ∈ imageExts ∧
    hasPdfExt (lowerString "https://x/photo.png") = false ∧
    (classify "https://x/photo.png" (some "png") = ResourceKind.Image ∧
      ∀ url2 : String, hasPdfExt (lowerString url2) = true →
        classify url2 (some "png") = ResourceKind.PaginatedDocument) :=
  ⟨by decide, by decide,
    classify_declared_image_type "https://x/photo.png" "png" (by decide) (by decide)⟩

/-- C8: a URL matching neither the image-extension pattern nor the `.pdf`
pattern, with no declared type, is classified as `PaginatedDocument` (the
ambiguous default), and classification is a pure, deterministic function of
`(resourceUrl, declaredType)`. -/
theorem classify_ambiguous_default (url : String)
    (himg : hasImgExt (lowerString url) = false)
    (hpdf : hasPdfExt (lowerString url) = false) :
    classify url none = ResourceKind.PaginatedDocument ∧
    ∀ (u : String) (ty : Option String), classify u ty = classify u ty := by
  refine ⟨?_, fun u ty => rfl⟩
  have h1 : isExplicitPdfType none = false := by decide
  have h2 : isExplicitImgType none = false := by decide
  simp [classify, h1, h2, himg, hpdf]

/-- C8 witness: a typical extensionless storage URL. -/
theorem classify_ambiguous_default_wit :
    hasImgExt (lowerString "https://drive.google.com/open?id=abc123") = false ∧
    hasPdfExt (lowerString "https://drive.google.com/open?id=abc123") = false ∧
    (classify "https://drive.google.com/open?id=abc123" none = ResourceKind.PaginatedDocument ∧
      ∀ (u : String) (ty : Option String), classify u ty = classify u ty) :=
  ⟨by decide, by decide,
    classify_ambiguous_default "https://drive.google.com/open?id=abc123" (by decide) (by decide)⟩

/-- C4: for a paginated document with `N` rasterized pages (any `N` with
`1 ≤ N ≤ maxPages`), the assembled content has exactly `N + 1` blocks — the
single instruction block first, then the `N` page images in page order; for
an image resource the content is exactly the instruction block followed by
one image block pointing at the original URL. -/
theorem assembleContent_blocks (promptText url : String) (pages : List String)
    (maxPages : ℕ) (h1 : 1 ≤ pages.length) (h2 : pages.length ≤ maxPages) :
    (assembleContent promptText true pages url).length = pages.length + 1 ∧
    assembleContent promptText true pages url =
      ContentBlock.instruction promptText :: pages.map ContentBlock.image ∧
    assembleContent promptText false pages url =
      [ContentBlock.instruction promptText, ContentBlock.image url] := by
  have hpdf : assembleContent promptText true pages url =
      ContentBlock.instruction promptText :: pages.map ContentBlock.image := by
    simp [assembleContent]
  refine ⟨?_, hpdf, by simp [assembleContent]⟩
  rw [hpdf]
  simp [Nat.add_comm]

/-- C4 witness: two pages, `maxPages = 3`. -/
theorem assembleContent_blocks_wit :
    1 ≤ (["p1", "p2"] : List String).length ∧
    (["p1", "p2"] : List String).length ≤ 3 ∧
    ((assembleContent "prompt" true ["p1", "p2"] "https://x/a.pdf").length =
        (["p1", "p2"] : List String).length + 1 ∧
      assembleContent "prompt" true ["p1", "p2"] "https://x/a.pdf" =
        ContentBlock.instruction "prompt" ::
          (["p1", "p2"] : List String).map ContentBlock.image ∧
      assembleContent "prompt" false ["p1", "p2"] "https://x/a.pdf" =
        [ContentBlock.instruction "prompt", ContentBlock.image "https://x/a.pdf"]) :=
  ⟨by decide, by decide,
    assembleContent_blocks "prompt" "https://x/a.pdf" ["p1", "p2"] 3 (by decide) (by decide)⟩

/-- C6: whenever the collection phase returns success, the returned page list
is nonempty — an input on which no page could be read (zero-page document,
corrupt document, or all page renders failing) produces the
`Rasterization produced no images.` error, never an empty success result. -/
theorem rasterize_no_empty_success {α : Type} (readPage : ℕ → Option α)
    (maxPages : ℕ) (images : List α)
    (h : rasterizeCollect readPage maxPages = Except.ok images) :
    images ≠ [] := by
  simp only [rasterizeCollect] at h
  cases hb : (collectImages readPage maxPages).isEmpty with
  | true => rw [hb] at h; exact absurd h (by simp)
  | false =>
    rw [hb] at h
    simp only [Bool.false_eq_true, if_false, Except.ok.injEq] at h
    subst h
    intro hnil
    rw [hnil] at hb
    simp at hb

/-- C6 witness: a one-page backend yields a nonempty success. -/
theorem rasterize_no_empty_success_wit : ["page-one"] ≠ ([] : List String) :=
  rasterize_no_empty_success readPageOne 3 ["page-one"] rfl

/-- C9: when the configured shared secret is unset (`undefined`) or the empty
string, the `/analyze-plan` handler rejects every request as unauthorized —
whatever the `x-internal-key` header holds, including when it is absent — and
no classification, URL selection, or downstream work happens (the outcome is
`unauthorized`, not `proceed`): the auth gate fails closed. -/
theorem auth_fails_closed (apiKey : Option String)
    (hk : apiKey = none ∨ apiKey = some "") (headerKey : Option String)
    (body : RequestBody) :
    analyzePlan apiKey headerKey body = HandlerOutcome.unauthorized := by
  rcases hk with h | h <;> subst h <;> rfl

/-- C9 witness: empty configured key, matching header also rejected. -/
theorem auth_fails_closed_wit :
    ((some "" : Option String) = none ∨ (some "" : Option String) = some "") ∧
    analyzePlan (some "") (some "")
      ⟨some "https://a/x.pdf", none, none⟩ = HandlerOutcome.unauthorized :=
  ⟨Or.inr rfl,
    auth_fails_closed (some "") (Or.inr rfl) (some "")
      ⟨some "https://a/x.pdf", none, none⟩⟩

theorem strBlank_empty : strBlank "" = true := rfl

theorem jsTruthy_some (s : String) : jsTruthy (some s) = !(strBlank s) := rfl

theorem bnot_false {b : Bool} (h : (!b) = false) : b = true := by
  cases b with
  | false => exact absurd h (by decide)
  | true => rfl

theorem analyzePlan_proceed (apiKey headerKey : Option String) (body : RequestBody)
    (hauth : authRejects apiKey headerKey = false) (u : String)
    (hurl : jsOrStr body.fileUrl body.imageUrl = some u)
    (hu : strBlank u = false) :
    analyzePlan apiKey headerKey body =
      HandlerOutcome.proceed u (classify u body.fileType) := by
  unfold analyzePlan
  rw [hauth, hurl]
  simp [hu]

theorem analyzePlan_missing (apiKey headerKey : Option String) (body : RequestBody)
    (hauth : authRejects apiKey headerKey = false)
    (hurl : jsTruthy (jsOrStr body.fileUrl body.imageUrl) = false) :
    analyzePlan apiKey headerKey body = HandlerOutcome.missingUrl := by
  unfold analyzePlan
  rw [hauth]
  cases hj : jsOrStr body.fileUrl body.imageUrl with
  | none => simp
  | some s =>
    rw [hj, jsTruthy_some] at hurl
    have hs : strBlank s = true := bnot_false hurl
    simp [hs]

/-- C10: when the auth gate passes, a truthy `fileUrl` is the resource URL
used for classification and all downstream work regardless of `imageUrl`;
`imageUrl` is used only when `fileUrl` is absent or empty; and when both are
absent or empty the handler stops with the 400 missing-URL outcome before any
classification. -/
theorem url_selection (apiKey headerKey : Option String) (body : RequestBody)
    (hauth : authRejects apiKey headerKey = false) :
    (∀ f : String, body.fileUrl = some f → strBlank f = false →
      analyzePlan apiKey headerKey body =
        HandlerOutcome.proceed f (classify f body.fileType)) ∧
    (∀ i : String, jsTruthy body.fileUrl = false → body.imageUrl = some i →
      strBlank i = false →
      analyzePlan apiKey headerKey body =
        HandlerOutcome.proceed i (classify i body.fileType)) ∧
    (jsTruthy body.fileUrl = false → jsTruthy body.imageUrl = false →
      analyzePlan apiKey headerKey body = HandlerOutcome.missingUrl) := by
  refine ⟨?_, ?_, ?_⟩
  · intro f hf hb
    have htr : jsTruthy (some f) = true := by
      rw [jsTruthy_some, hb]; rfl
    refine analyzePlan_proceed apiKey headerKey body hauth f ?_ hb
    simp [jsOrStr, hf, htr]
  · intro i hfile hi hb
    refine analyzePlan_proceed apiKey headerKey body hauth i ?_ hb
    simp [jsOrStr, hfile, hi]
  · intro h1 h2
    refine analyzePlan_missing apiKey headerKey body hauth ?_
    have hor : jsOrStr body.fileUrl body.imageUrl = body.imageUrl := by
      simp [jsOrStr, h1]
    rw [hor]
    exact h2

/-- C10 witness: both URLs present and truthy; `fileUrl` wins. -/
theorem url_selection_wit :
    authRejects (some "k") (some "k") = false ∧
    (some "https://a/x.pdf" : Option String) = some "https://a/x.pdf" ∧
    strBlank "https://a/x.pdf" = false ∧
    analyzePlan (some "k") (some "k")
        ⟨some "https://a/x.pdf", some "https://a/y.png", none⟩ =
      HandlerOutcome.proceed "https://a/x.pdf" (classify "https://a/x.pdf" none) :=
  ⟨by decide, rfl, by decide,
    (url_selection (some "k") (some "k")
        ⟨some "https://a/x.pdf", some "https://a/y.png", none⟩ (by decide)).1
      "https://a/x.pdf" rfl (by decide)⟩

theorem collectLoop_length_le {α : Type} (readPage : ℕ → Option α) :
    ∀ n i : ℕ, (collectLoop readPage i n).length ≤ n := by
  intro n
  induction n with
  | zero => intro i; simp [collectLoop]
  | succ n ih =>
    intro i
    simp only [collectLoop]
    cases readPage i with
    | none => simp
    | some img => simpa using Nat.succ_le_succ (ih (i + 1))

theorem collectLoop_complete {α : Type} (readPage : ℕ → Option α) (m : ℕ)
    (render : ℕ → α)
    (hread : ∀ i, readPage i = if 1 ≤ i ∧ i ≤ m then some (render i) else none) :
    ∀ n i : ℕ, 1 ≤ i →
      collectLoop readPage i n = (List.range' i (min (m + 1 - i) n)).map render := by
  intro n
  induction n with
  | zero => intro i _; simp [collectLoop]
  | succ n ih =>
    intro i hi
    simp only [collectLoop]
    rw [hread i]
    by_cases him : i ≤ m
    · rw [if_pos ⟨hi, him⟩]
      rw [ih (i + 1) (le_trans hi (Nat.le_succ i))]
      have h1 : m + 1 - i = (m - i) + 1 := by omega
      have h2 : m + 1 - (i + 1) = m - i := by omega
      rw [h1, h2, Nat.succ_min_succ, List.range'_succ, List.map_cons]
    · rw [if_neg (fun hc => him hc.2)]
      have h0 : m + 1 - i = 0 := by omega
      rw [h0]
      simp

/-- C3: the collection loop returns at most `maxPages` entries; and on a
backend where `pdftoppm` produced exactly the output files for pages
`1 .. min(pageCount, maxPages)` (the normal successful render of a
`pageCount`-page document), the returned entries are exactly those pages, in
strictly increasing 1-indexed contiguous order
(`List.range' 1 k = [1, 2, ..., k]`). -/
theorem collectImages_bounded_contiguous (maxPages : ℕ)
    (readPage : ℕ → Option String) :
    (collectImages readPage maxPages).length ≤ maxPages ∧
    ∀ (pageCount : ℕ) (render : ℕ → String),
      (∀ i, readPage i =
        if 1 ≤ i ∧ i ≤ min pageCount maxPages then some (render i) else none) →
      collectImages readPage maxPages =
        (List.range' 1 (min pageCount maxPages)).map render := by
  constructor
  · exact collectLoop_length_le readPage maxPages 1
  · intro pageCount render hread
    unfold collectImages
    rw [collectLoop_complete readPage (min pageCount maxPages) render hread maxPages 1 le_rfl]
    congr 1
    rw [Nat.add_sub_cancel, Nat.min_eq_left (Nat.min_le_right pageCount maxPages)]

/-- C3 witness: a two-page document collected with `maxPages = 3`. -/
theorem collectImages_bounded_contiguous_wit :
    (collectImages readPageTwoOfThree 3).length ≤ 3 ∧
    collectImages readPageTwoOfThree 3 =
      (List.range' 1 (min 2 3)).map (fun _ => "page-data") :=
  ⟨(collectImages_bounded_contiguous 3 readPageTwoOfThree).1,
    (collectImages_bounded_contiguous 3 readPageTwoOfThree).2 2 (fun _ => "page-data")
      (fun _ => rfl)⟩

/-- C5, counterexample: on an envelope whose primary `output_text` is the
empty string while the nested content structure holds the JSON text, the
deployed (Poppler) handler's extraction yields no text — the request fails
with the empty-output error — even though the older embedded variant's
fallback extraction succeeds on the very same envelope. -/
theorem poppler_ignores_nested_content :
    extractPoppler envelopeNestedOnly = none ∧
    nestedFirstText envelopeNestedOnly = some "\x7b\"quick_summary\":\"ok\"\x7d" ∧
    extractFallback envelopeNestedOnly = some "\x7b\"quick_summary\":\"ok\"\x7d" :=
  ⟨by decide, by decide, by decide⟩

/-- C5, amended: the nested-content fallback exists only in the older
embedded variant.  For every envelope whose primary `output_text` is blank
(absent or trimming to empty) but whose nested `output[0].content[0].text`
holds nonblank text `t`: the fallback variant's extraction succeeds with
exactly `t` — the same text, hence the same parsed structure, as if the
primary field had held `t` directly — while the deployed Poppler variant's
extraction finds nothing and the request fails with the empty-output
error. -/
theorem jsonText_extraction_variants (r : ResponseEnvelope) (t : String)
    (hblank : primaryBlank r = true)
    (hnested : nestedFirstText r = some t)
    (ht : strBlank (jsTrim t) = false) :
    extractPoppler r = none ∧
    extractFallback r = some t ∧
    extractFallback { output_text := some t, output := r.output } = some t := by
  have htb : strBlank t = false := strBlank_of_trim ht
  refine ⟨?_, ?_, ?_⟩
  · cases hout : r.output_text with
    | none => simp [extractPoppler, jsonTextPoppler, hout, strBlank_empty]
    | some s =>
      have hb : strBlank (jsTrim s) = true := by
        simpa [primaryBlank, hout] using hblank
      simp [extractPoppler, jsonTextPoppler, hout, hb, strBlank_empty]
  · cases hout : r.output_text with
    | none => simp [extractFallback, jsonTextFallback, hout, hnested, htb]
    | some s =>
      have hb : strBlank (jsTrim s) = true := by
        simpa [primaryBlank, hout] using hblank
      simp [extractFallback, jsonTextFallback, hout, hb, hnested, htb]
  · simp [extractFallback, jsonTextFallback, ht, htb]

/-- C5 witness: concrete instance of `jsonText_extraction_variants`. -/
theorem jsonText_extraction_variants_wit :
    primaryBlank envelopeNestedOnly = true ∧
    nestedFirstText envelopeNestedOnly = some "\x7b\"quick_summary\":\"ok\"\x7d" ∧
    strBlank (jsTrim "\x7b\"quick_summary\":\"ok\"\x7d") = false ∧
    (extractPoppler envelopeNestedOnly = none ∧
      extractFallback envelopeNestedOnly = some "\x7b\"quick_summary\":\"ok\"\x7d" ∧
      extractFallback
          { output_text := some "\x7b\"quick_summary\":\"ok\"\x7d",
            output := envelopeNestedOnly.output } =
        some "\x7b\"quick_summary\":\"ok\"\x7d") :=
  ⟨by decide, by decide, by decide,
    jsonText_extraction_variants envelopeNestedOnly
      "\x7b\"quick_summary\":\"ok\"\x7d" (by decide) (by decide) (by decide)⟩

theorem downloadToTempFile_cases (fetchOut : Except String FetchResult)
    (writeOk : Bool) (maxBytes : ℕ) (dirName : String) (σ : FsState) :
    (downloadReachesWrite fetchOut maxBytes = true ∧
      (downloadToTempFile fetchOut writeOk maxBytes dirName σ).2 =
        ⟨dirName :: σ.tempDirs⟩ ∧
      ((writeOk = true ∧
          (downloadToTempFile fetchOut writeOk maxBytes dirName σ).1 =
            Except.ok dirName) ∨
        (writeOk = false ∧
          (downloadToTempFile fetchOut writeOk maxBytes dirName σ).1 =
            Except.error "write failed"))) ∨
    (downloadReachesWrite fetchOut maxBytes = false ∧
      (downloadToTempFile fetchOut writeOk maxBytes dirName σ).2 = σ ∧
      ∃ e, (downloadToTempFile fetchOut writeOk maxBytes dirName σ).1 =
        Except.error e) := by
  cases fetchOut with
  | error e => exact Or.inr ⟨rfl, rfl, e, rfl⟩
  | ok r =>
    obtain ⟨rok, rcl, rbl⟩ := r
    cases rok with
    | false => exact Or.inr ⟨rfl, rfl, "Failed to download file", rfl⟩
    | true =>
      cases rcl with
      | none =>
        by_cases hbl : maxBytes < rbl
        · have hd : decide (rbl ≤ maxBytes) = false :=
            decide_eq_false (Nat.not_le.mpr hbl)
          refine Or.inr ⟨?_, ?_, "PDF too large", ?_⟩
          · simp [downloadReachesWrite, hd]
          · simp [downloadToTempFile, hbl]
          · simp [downloadToTempFile, hbl]
        · have hd : decide (rbl ≤ maxBytes) = true :=
            decide_eq_true (Nat.not_lt.mp hbl)
          refine Or.inl ⟨by simp [downloadReachesWrite, hd], ?_, ?_⟩
          · cases writeOk <;> simp [downloadToTempFile, hbl]
          · cases writeOk with
            | true => exact Or.inl ⟨rfl, by simp [downloadToTempFile, hbl]⟩
            | false => exact Or.inr ⟨rfl, by simp [downloadToTempFile, hbl]⟩
      | some n =>
        by_cases hn : maxBytes < n
        · have hd : decide (maxBytes < n) = true := decide_eq_true hn
          refine Or.inr ⟨?_, ?_, "PDF too large", ?_⟩
          · simp [downloadReachesWrite, hd]
          · simp [downloadToTempFile, hd]
          · simp [downloadToTempFile, hd]
        · have hd : decide (maxBytes < n) = false := decide_eq_false hn
          by_cases hbl : maxBytes < rbl
          · have hd2 : decide (rbl ≤ maxBytes) = false :=
              decide_eq_false (Nat.not_le.mpr hbl)
            refine Or.inr ⟨?_, ?_, "PDF too large", ?_⟩
            · simp [downloadReachesWrite, hd, hd2]
            · simp [downloadToTempFile, hd, hbl]
            · simp [downloadToTempFile, hd, hbl]
          · have hd2 : decide (rbl ≤ maxBytes) = true :=
              decide_eq_true (Nat.not_lt.mp hbl)
            refine Or.inl ⟨by simp [downloadReachesWrite, hd, hd2], ?_, ?_⟩
            · cases writeOk <;> simp [downloadToTempFile, hd, hbl]
            · cases writeOk with
              | true => exact Or.inl ⟨rfl, by simp [downloadToTempFile, hd, hbl]⟩
              | false => exact Or.inr ⟨rfl, by simp [downloadToTempFile, hd, hbl]⟩

/-- C7, counterexample: a request whose fetch succeeds (status ok, size under
the ceiling) but whose write of the downloaded bytes into the freshly created
temporary directory fails, propagates the error with the temporary directory
still present in the file-system state — temporary state survives this exit
path, because `downloadToTempFile` creates the directory before the write and
the `try/finally` cleanup of `rasterizePdfToImagesPoppler` only starts after
the download has returned. -/
theorem rasterize_leaks_on_write_failure :
    (rasterizeWithState true fetchSmallOk false true readPageOne 4 1000
        "wc-vision-tmp" ⟨[]⟩).1 = Except.error "write failed" ∧
    (rasterizeWithState true fetchSmallOk false true readPageOne 4 1000
        "wc-vision-tmp" ⟨[]⟩).2 = ⟨["wc-vision-tmp"]⟩ ∧
    (⟨["wc-vision-tmp"]⟩ : FsState) ≠ ⟨[]⟩ :=
  ⟨rfl, rfl, by decide⟩

/-- C7, amended: on every exit path of the rasterizer *except* a failure of
the write of the fetched bytes into the just-created temporary directory, the
file-system state is returned unchanged (the per-request temporary directory
and its files are removed before the result or error is propagated).  On the
write-failure path the directory — created by `fs.mkdtemp` immediately before
the failed `fs.writeFile` — is leaked: the final state holds exactly that one
extra directory. -/
theorem rasterize_cleanup (pdftoppmOk : Bool) (fetchOut : Except String FetchResult)
    (writeOk renderOk : Bool) (readPage : ℕ → Option String)
    (maxPages maxBytes : ℕ) (dirName : String) (σ : FsState) :
    (rasterizeWithState pdftoppmOk fetchOut writeOk renderOk readPage maxPages
        maxBytes dirName σ).2.tempDirs =
      if pdftoppmOk && downloadReachesWrite fetchOut maxBytes && !writeOk then
        dirName :: σ.tempDirs
      else σ.tempDirs := by
  cases pdftoppmOk with
  | false => simp [rasterizeWithState]
  | true =>
    have hc := downloadToTempFile_cases fetchOut writeOk maxBytes dirName σ
    rcases hc with ⟨hreach, hst, ⟨hw, hres⟩ | ⟨hw, hres⟩⟩ | ⟨hreach, hst, e, hres⟩
    · -- download succeeded (write ok): every later path runs the finally-cleanup
      subst hw
      have hdl : downloadToTempFile fetchOut true maxBytes dirName σ =
          (Except.ok dirName, ⟨dirName :: σ.tempDirs⟩) := by
        rw [← hres, ← hst]
      have h2 : (rasterizeWithState true fetchOut true renderOk readPage maxPages
          maxBytes dirName σ).2 = ⟨(dirName :: σ.tempDirs).erase dirName⟩ := by
        cases renderOk with
        | false => simp [rasterizeWithState, hdl]
        | true =>
          cases hrc : rasterizeCollect readPage maxPages (α := String) with
          | error e3 => simp [rasterizeWithState, hdl, hrc]
          | ok imgs => simp [rasterizeWithState, hdl, hrc]
      rw [h2]
      simp [hreach, List.erase_cons_head]
    · -- download created the directory but the write failed: the error
      -- propagates before the finally-cleanup is installed
      subst hw
      have hdl : downloadToTempFile fetchOut false maxBytes dirName σ =
          (Except.error "write failed", ⟨dirName :: σ.tempDirs⟩) := by
        rw [← hres, ← hst]
      have h2 : rasterizeWithState true fetchOut false renderOk readPage maxPages
          maxBytes dirName σ =
          (Except.error "write failed", ⟨dirName :: σ.tempDirs⟩) := by
        simp [rasterizeWithState, hdl]
      rw [h2]
      simp [hreach]
    · -- download failed before creating the directory: state unchanged
      have hdl : downloadToTempFile fetchOut writeOk maxBytes dirName σ =
          (Except.error e, σ) := by
        have hp := Prod.mk.eta
          (p := downloadToTempFile fetchOut writeOk maxBytes dirName σ)
        rw [hres, hst] at hp
        exact hp.symm
      have h2 : rasterizeWithState true fetchOut writeOk renderOk readPage maxPages
          maxBytes dirName σ = (Except.error e, σ) := by
        simp [rasterizeWithState, hdl]
      rw [h2]
      simp [hreach]

theorem ratSqrtFloor_eq (q : ℚ) (hq : 0 ≤ q) :
    ratSqrtFloor q = ⌊Real.sqrt ((q : ℝ))⌋₊ := by
  have hbpos : 0 < q.den := q.den_pos
  have hbne : ((q.den : ℝ)) ≠ 0 :=
    Nat.cast_ne_zero.mpr (Nat.pos_iff_ne_zero.mp hbpos)
  have hnumnn : 0 ≤ q.num := Rat.num_nonneg.mpr hq
  have h1 : ((q.num.toNat : ℤ)) = q.num := Int.toNat_of_nonneg hnumnn
  have hncast : ((q.num.toNat : ℕ) : ℝ) = ((q.num : ℤ) : ℝ) := by
    exact_mod_cast congrArg (fun z : ℤ => (z : ℝ)) h1
  have hcast : (q : ℝ) = ((q.num.toNat : ℕ) : ℝ) / ((q.den : ℕ) : ℝ) := by
    rw [Rat.cast_def, hncast]
  have hrw : (((q.num.toNat * q.den : ℕ) : ℝ)) / ((q.den : ℝ)) ^ 2 =
      ((q.num.toNat : ℕ) : ℝ) / ((q.den : ℝ)) := by
    push_cast
    rw [pow_two, mul_div_mul_right _ _ hbne]
  have hab : Real.sqrt ((q : ℝ)) =
      Real.sqrt (((q.num.toNat * q.den : ℕ) : ℝ)) / ((q.den : ℝ)) := by
    rw [hcast, ← hrw, Real.sqrt_div (by positivity) _, Real.sqrt_sq (by positivity)]
  unfold ratSqrtFloor
  rw [hab, Nat.floor_div_nat, Real.nat_floor_real_sqrt_eq_nat_sqrt]

theorem le_ratSqrtFloor_iff (q : ℚ) (hq : 0 ≤ q) (d : ℕ) :
    d ≤ ratSqrtFloor q ↔ (d : ℚ) ^ 2 ≤ q := by
  rw [ratSqrtFloor_eq q hq,
    Nat.le_floor_iff (Real.sqrt_nonneg _),
    Real.le_sqrt (by positivity) (by exact_mod_cast hq)]
  constructor <;> intro hle <;> exact_mod_cast hle

/-- C2: when the projected pixel count of the first page at the target DPI
strictly exceeds `maxPixelsPerPage`, the effective DPI equals
`Math.floor(dpi * Math.sqrt(maxPixels / pixels))` read over the reals, and it
is the largest natural-number DPI whose rendered area stays at or under the
ceiling (`pagePixels w h d ≤ maxPixels ↔ d ≤ effectiveDpi`); when the
projected pixel count is at or under the ceiling, or page dimensions are
unavailable, the effective DPI is the target DPI unchanged. -/
theorem effectiveDpi_floor_sqrt_spec (w h : ℚ) (dpi maxPixels : ℕ)
    (hw : 0 < w) (hh : 0 < h)
    (hover : (maxPixels : ℚ) < pagePixels w h dpi) :
    ((effectiveDpi (some (w, h)) dpi maxPixels : ℤ) =
      ⌊(dpi : ℝ) * Real.sqrt ((maxPixels : ℝ) / ((pagePixels w h dpi : ℚ) : ℝ))⌋) ∧
    (∀ d : ℕ, pagePixels w h d ≤ (maxPixels : ℚ) ↔
      d ≤ effectiveDpi (some (w, h)) dpi maxPixels) ∧
    (∀ w2 h2 : ℚ, pagePixels w2 h2 dpi ≤ (maxPixels : ℚ) →
      effectiveDpi (some (w2, h2)) dpi maxPixels = dpi) ∧
    effectiveDpi none dpi maxPixels = dpi := by
  have hP : (0 : ℚ) < pagePixels w h dpi :=
    lt_of_le_of_lt (Nat.cast_nonneg maxPixels) hover
  have hdpi : 0 < dpi := by
    by_contra h0
    have hz : dpi = 0 := Nat.eq_zero_of_not_pos h0
    rw [hz] at hover
    simp [pagePixels] at hover
    exact absurd hover (not_lt.mpr (Nat.cast_nonneg maxPixels))
  have hdpiQ : (0 : ℚ) < (dpi : ℚ) := by exact_mod_cast hdpi
  have hdpi2 : (0 : ℚ) < (dpi : ℚ) ^ 2 := by positivity
  have heff : effectiveDpi (some (w, h)) dpi maxPixels =
      ratSqrtFloor ((dpi : ℚ) ^ 2 * (maxPixels : ℚ) / pagePixels w h dpi) := by
    simp [effectiveDpi, hover]
  have hq : 0 ≤ (dpi : ℚ) ^ 2 * (maxPixels : ℚ) / pagePixels w h dpi :=
    div_nonneg (by positivity) hP.le
  refine ⟨?_, ?_, ?_, rfl⟩
  · rw [heff]
    have hcast : (((dpi : ℚ) ^ 2 * (maxPixels : ℚ) / pagePixels w h dpi : ℚ) : ℝ) =
        ((dpi : ℝ)) ^ 2 * ((maxPixels : ℝ) / ((pagePixels w h dpi : ℚ) : ℝ)) := by
      push_cast
      ring
    have hsq : Real.sqrt
          (((dpi : ℚ) ^ 2 * (maxPixels : ℚ) / pagePixels w h dpi : ℚ) : ℝ) =
        (dpi : ℝ) * Real.sqrt ((maxPixels : ℝ) / ((pagePixels w h dpi : ℚ) : ℝ)) := by
      rw [hcast, Real.sqrt_mul (by positivity) _, Real.sqrt_sq (by positivity)]
    rw [ratSqrtFloor_eq _ hq, Int.natCast_floor_eq_floor (Real.sqrt_nonneg _), hsq]
  · intro d
    rw [heff, le_ratSqrtFloor_iff _ hq d, le_div_iff₀ hP]
    have hkey : (d : ℚ) ^ 2 * pagePixels w h dpi =
        (dpi : ℚ) ^ 2 * pagePixels w h d := by
      simp only [pagePixels]
      ring
    rw [hkey]
    exact (mul_le_mul_left hdpi2).symm
  · intro w2 h2 hle
    simp [effectiveDpi, not_lt.mpr hle]

/-- C2 witness: a 10"×10" page at 100 DPI projects 1,000,000 pixels against a
250,000-pixel ceiling; the effective DPI drops to 50. -/
theorem effectiveDpi_floor_sqrt_spec_wit :
    (0 : ℚ) < 720 ∧ ((250000 : ℕ) : ℚ) < pagePixels 720 720 100 ∧
    (((effectiveDpi (some (720, 720)) 100 250000 : ℤ) =
        ⌊((100 : ℕ) : ℝ) *
          Real.sqrt (((250000 : ℕ) : ℝ) / ((pagePixels 720 720 100 : ℚ) : ℝ))⌋) ∧
      (∀ d : ℕ, pagePixels 720 720 d ≤ ((250000 : ℕ) : ℚ) ↔
        d ≤ effectiveDpi (some (720, 720)) 100 250000) ∧
      (∀ w2 h2 : ℚ, pagePixels w2 h2 100 ≤ ((250000 : ℕ) : ℚ) →
        effectiveDpi (some (w2, h2)) 100 250000 = 100) ∧
      effectiveDpi none 100 250000 = 100) :=
  ⟨by norm_num, by norm_num [pagePixels],
    effectiveDpi_floor_sqrt_spec 720 720 100 250000 (by norm_num) (by norm_num)
      (by norm_num [pagePixels])⟩
